import Mathlib

/-!
Verification of the DorkHunter repository: a shallow embedding of the dork
generator (`dorks-config.js`, `domain-config.js`), the scan driver and
checkpoint store (`dork-scanner.js`, `utils.js`) and the human-interaction
module (`human-interaction.js`), together with theorems settling the
specification claims about these components.

Conventions of the embedding:
 - pure JS functions become Lean functions on `String`/`List`/`Nat`/`Int`;
 - the browser page, the operator and the clock are modelled as explicit
   environments (records of functions) supplying the values the code reads
   from the outside world, one value per interaction;
 - a JS expression that may throw is modelled with `Option` (payload `none`
   models a thrown error) or `Except String` for functions whose contract
   distinguishes hard errors from recovered ones.
-/

namespace DorkHunter

/-- Model of the JS `String.prototype.includes` test used by the detector:
`jsIncludes s sub` holds exactly when `sub` occurs contiguously in `s`. -/
def jsIncludes (s sub : String) : Bool := decide (sub.data <:+: s.data)

/-- Model of the JS builtin `String.prototype.toLowerCase`: character-wise
lowercasing. -/
def jsToLower (s : String) : String := ⟨s.data.map Char.toLower⟩

/-- Model of the JS idiom `[...new Set(xs)]` used at the end of
`generateDorksList`: keeps the first occurrence of each string and drops all
later duplicates, preserving insertion order (JS `Set` iteration order). -/
def jsSetDedup : List String → List String
  | [] => []
  | x :: xs => x :: jsSetDedup (xs.filter (fun y => y != x))
termination_by l => l.length
decreasing_by
  simp only [List.length_cons]
  exact Nat.lt_succ_of_le (List.length_filter_le _ _)

theorem mem_of_mem_jsSetDedup {s : String} :
    ∀ {l : List String}, s ∈ jsSetDedup l → s ∈ l := by
  intro l
  induction l using jsSetDedup.induct with
  | case1 => intro h; simp [jsSetDedup] at h
  | case2 x xs ih =>
    intro h
    rw [jsSetDedup] at h
    rcases List.mem_cons.mp h with h | h
    · exact h ▸ List.mem_cons_self _ _
    · exact List.mem_cons_of_mem _ (List.mem_of_mem_filter (ih h))

theorem mem_jsSetDedup_of_mem {s : String} :
    ∀ {l : List String}, s ∈ l → s ∈ jsSetDedup l := by
  intro l
  induction l using jsSetDedup.induct with
  | case1 => intro h; simp at h
  | case2 x xs ih =>
    intro h
    rw [jsSetDedup]
    rcases List.mem_cons.mp h with h | h
    · exact h ▸ List.mem_cons_self _ _
    · by_cases hx : s = x
      · exact hx ▸ List.mem_cons_self _ _
      · refine List.mem_cons_of_mem _ (ih ?_)
        exact List.mem_filter.mpr ⟨h, by simpa using hx⟩

theorem mem_jsSetDedup_iff {s : String} {l : List String} :
    s ∈ jsSetDedup l ↔ s ∈ l :=
  ⟨mem_of_mem_jsSetDedup, mem_jsSetDedup_of_mem⟩

theorem jsSetDedup_nodup : ∀ l : List String, (jsSetDedup l).Nodup := by
  intro l
  induction l using jsSetDedup.induct with
  | case1 => simp [jsSetDedup]
  | case2 x xs ih =>
    rw [jsSetDedup]
    refine List.nodup_cons.mpr ⟨?_, ih⟩
    intro hx
    have := List.mem_filter.mp (mem_of_mem_jsSetDedup hx)
    simp at this

/-- `d` occurs in `a ++ d ++ b` (the shape of a dork template with the
domain interpolated in the middle). -/
theorem data_mid (a d b : String) : d.data <:+: (a ++ d ++ b).data :=
  ⟨a.data, b.data, by simp [String.data_append]⟩

/-- `d` occurs in `a ++ d` (the shape of a dork template ending with the
domain). -/
theorem data_end (a d : String) : d.data <:+: (a ++ d).data :=
  ⟨a.data, [], by simp [String.data_append]⟩

theorem infix_ext_left {α : Type} {x m : List α} (l : List α) (h : x <:+: m) :
    x <:+: l ++ m := by
  obtain ⟨s, t, rfl⟩ := h
  exact ⟨l ++ s, t, by simp⟩

theorem infix_ext_right {α : Type} {x m : List α} (r : List α) (h : x <:+: m) :
    x <:+: m ++ r := by
  obtain ⟨s, t, rfl⟩ := h
  exact ⟨s, t ++ r, by simp⟩

theorem self_append_infix {α : Type} (x r : List α) : x <:+: x ++ r :=
  ⟨[], r, by simp⟩

/-! ## dorks-config.js -/

/-- One entry of `SEARCH_ENGINES` in `dorks-config.js`. -/
structure SearchEngine where
  name : String
  url : String
  resultSelector : String
  titleSelector : String
  linkSelector : String
  snippetSelector : String
  statsSelector : String
  cookieAcceptSelector : String

/-- The `SEARCH_ENGINES` list of `dorks-config.js`. -/
def SEARCH_ENGINES : List SearchEngine :=
  [ { name := "Google", url := "https://www.google.com/search?q=",
      resultSelector := "div.g", titleSelector := "h3", linkSelector := "a",
      snippetSelector := "div.VwiC3b", statsSelector := "#result-stats",
      cookieAcceptSelector := "button[id=\"L2AGLb\"]" },
    { name := "Bing", url := "https://www.bing.com/search?q=",
      resultSelector := ".b_algo", titleSelector := "h2", linkSelector := "a",
      snippetSelector := ".b_caption p", statsSelector := ".sb_count",
      cookieAcceptSelector := "#bnp_btn_accept" },
    { name := "DuckDuckGo", url := "https://duckduckgo.com/?q=",
      resultSelector := ".result", titleSelector := ".result__title",
      linkSelector := ".result__a", snippetSelector := ".result__snippet",
      statsSelector := "null", cookieAcceptSelector := "null" },
    { name := "Yahoo", url := "https://search.yahoo.com/search?p=",
      resultSelector := ".algo", titleSelector := "h3", linkSelector := "a.d-ib",
      snippetSelector := ".compText", statsSelector := ".searchCenterMiddle",
      cookieAcceptSelector := "button[name=\"agree\"]" } ]

/-- `generateGenericDorks` from `dorks-config.js`: the sixty generic dork
templates with the target domain interpolated. -/
def generateGenericDorks (domain : String) : List String :=
  [ "site:" ++ domain ++ " filetype:env OR filetype:yml password",
    "site:" ++ domain ++ " filetype:xml password",
    "site:" ++ domain ++ " filetype:log username password",
    "site:" ++ domain ++ " filetype:ini password OR key OR secret",
    "site:" ++ domain ++ " filetype:config password",
    "site:" ++ domain ++ " intext:\"API_KEY\" OR intext:\"apikey\" OR intext:\"api_key\"",
    "site:" ++ domain ++ " intext:\"SECRET_KEY\" OR intext:\"client_secret\"",
    "site:" ++ domain ++ " \"authorization: Bearer\"",
    "site:" ++ domain ++ " \"access_token\"",
    "site:" ++ domain ++ " intext:\"aws_access_key_id\" filetype:txt OR filetype:log",
    "site:" ++ domain ++ " intext:\"jdbc:mysql:\" -github",
    "site:" ++ domain ++ " \"password\" filetype:txt OR filetype:sql OR filetype:ini",
    "site:" ++ domain ++ " intitle:\"Index of\" \"parent directory\"",
    "site:" ++ domain ++ " intitle:\"Index of\" wp-admin",
    "site:" ++ domain ++ " inurl:\"/wp-content/uploads/\"",
    "site:" ++ domain ++ " intitle:\"Index of\" inurl:backup OR inurl:old OR inurl:bkp",
    "site:" ++ domain ++ " filetype:bak OR filetype:backup OR filetype:sql",
    "site:" ++ domain ++ " filetype:sql \"INSERT INTO\" -\"SQL dump\"",
    "site:" ++ domain ++ " filetype:sql intext:password",
    "site:" ++ domain ++ " filetype:log",
    "site:" ++ domain ++ " intext:\"<!ENTITY % xx SYSTEM xx;\"",
    "site:" ++ domain ++ " intext:\"syntax error\" filetype:sql",
    "site:" ++ domain ++ " filetype:json \"api\" OR \"key\" OR \"token\"",
    "site:" ++ domain ++ " filetype:conf \"location ~\"",
    "site:" ++ domain ++ " intitle:\"Apache HTTP Server\" intitle:\"documentation\"",
    "site:" ++ domain ++ " intext:\"Apache Tomcat/\" \"error report\"",
    "site:" ++ domain ++ " intext:\"nginx error log\"",
    "site:" ++ domain ++ " intitle:\"Welcome to nginx!\" intext:\"Welcome to nginx\"",
    "site:" ++ domain ++ " intitle:\"403 Forbidden\" intext:\"nginx\"",
    "site:" ++ domain ++ " inurl:login OR inurl:admin OR inurl:backend",
    "site:" ++ domain ++ " inurl:\"/phpinfo.php\" OR inurl:\".php?mode=phpinfo\"",
    "site:" ++ domain ++ " inurl:\"/phpmyadmin/\" OR inurl:\"/adminer.php\"",
    "site:" ++ domain ++ " inurl:\"/wp-login.php\" OR inurl:\"/administrator/\"",
    "site:" ++ domain ++ " inurl:\"/server-status\" OR inurl:\"/server-info\"",
    "site:" ++ domain ++ " inurl:\"/wp-json/wp/v2/users\"",
    "site:" ++ domain ++ " inurl:\"/api/swagger\" OR inurl:\"/swagger-ui.html\"",
    "site:" ++ domain ++ " inurl:\"/api/v1\" OR inurl:\"/api/v2\"",
    "site:" ++ domain ++ " inurl:\"/.git\" \"Index of /.git\"",
    "site:" ++ domain ++ " inurl:\"/actuator/health\" OR inurl:\"/actuator/env\"",
    "site:" ++ domain ++ " inurl:\"/.env\" OR inurl:\"/config.js\"",
    "site:" ++ domain ++ " inurl:\"/.well-known/\"",
    "site:" ++ domain ++ " \"error occured at line\" OR \"syntax error\"",
    "site:" ++ domain ++ " \"Warning:\" \"database\" \"on line\"",
    "site:" ++ domain ++ " \"ERROR: The requested URL could not be retrieved\"",
    "site:github.com " ++ domain,
    "site:gitlab.com " ++ domain,
    "site:bitbucket.org " ++ domain,
    "site:pastebin.com " ++ domain,
    "site:jsfiddle.net " ++ domain,
    "site:codepen.io " ++ domain,
    "site:trello.com " ++ domain,
    "site:*." ++ domain ++ " inurl:test OR inurl:dev OR inurl:stage OR inurl:beta",
    "site:*." ++ domain ++ " inurl:uat OR inurl:qa OR inurl:staging",
    "site:test." ++ domain ++ " OR site:dev." ++ domain ++ " OR site:stage." ++ domain ++ " OR site:stg." ++ domain,
    "site:*." ++ domain ++ " -www intext:admin OR intext:login",
    "site:s3.amazonaws.com " ++ domain,
    "site:blob.core.windows.net " ++ domain,
    "site:storage.googleapis.com " ++ domain,
    "site:cloudfront.net " ++ domain,
    "site:digitaloceanspaces.com " ++ domain,
    "site:" ++ domain ++ " inurl:\"server-status\" OR inurl:\"status.php\"",
    "site:" ++ domain ++ " intext:\"Fatal error: Call to undefined function\"",
    "site:" ++ domain ++ " inurl:\"?page=\" OR inurl:\"?file=\" OR inurl:\"?id=\"",
    "site:" ++ domain ++ " inurl:\"?php=\" OR inurl:\"?lang=\"",
    "site:" ++ domain ++ " ext:json OR ext:xml OR ext:conf OR ext:cnf OR ext:reg OR ext:inf OR ext:rdp OR ext:cfg OR ext:txt OR ext:ora OR ext:ini" ]

/-- `generateAEMDorks` from `dorks-config.js`. -/
def generateAEMDorks (domain : String) : List String :=
  [ "site:" ++ domain ++ " inurl:crx",
    "site:" ++ domain ++ " inurl:bin/querybuilder.json",
    "site:" ++ domain ++ " inurl:.infinity.json",
    "site:" ++ domain ++ " inurl:.1.json",
    "site:" ++ domain ++ " inurl:.tidy.json",
    "site:" ++ domain ++ " inurl:.model.json",
    "site:" ++ domain ++ " inurl:/libs/granite/security/currentuser.json",
    "site:" ++ domain ++ " inurl:/system/console",
    "site:" ++ domain ++ " inurl:/crx/de/index.jsp",
    "site:" ++ domain ++ " inurl:/crx/explorer",
    "site:" ++ domain ++ " inurl:/etc/replication",
    "site:" ++ domain ++ " inurl:/etc/dam",
    "site:" ++ domain ++ " inurl:/system/sling/cqform",
    "site:" ++ domain ++ " inurl:/apps/",
    "site:" ++ domain ++ " inurl:/content/dam",
    "site:" ++ domain ++ " inurl:felix/bundles",
    "site:" ++ domain ++ " inurl:etc/clientlibs",
    "site:" ++ domain ++ " inurl:system/console/configMgr",
    "site:" ++ domain ++ " inurl:.servlet.json",
    "site:" ++ domain ++ " inurl:.servlet.html" ]

/-- `generateCMSDorks` from `dorks-config.js`. -/
def generateCMSDorks (domain : String) : List String :=
  [ "site:" ++ domain ++ " inurl:wp-content",
    "site:" ++ domain ++ " inurl:wp-includes",
    "site:" ++ domain ++ " inurl:wp-admin",
    "site:" ++ domain ++ " inurl:wp-config.php",
    "site:" ++ domain ++ " inurl:wp-json/wp/v2/users",
    "site:" ++ domain ++ " inurl:xmlrpc.php",
    "site:" ++ domain ++ " inurl:index.php?option=com_",
    "site:" ++ domain ++ " inurl:/administrator/index.php",
    "site:" ++ domain ++ " intext:\"Joomla! Debug Console\"",
    "site:" ++ domain ++ " inurl:com_users",
    "site:" ++ domain ++ " inurl:/?q=user/",
    "site:" ++ domain ++ " inurl:/?q=admin/",
    "site:" ++ domain ++ " intext:\"Powered by Drupal\" inurl:user",
    "site:" ++ domain ++ " inurl:/sites/default/files/",
    "site:" ++ domain ++ " inurl:/app/etc/local.xml",
    "site:" ++ domain ++ " inurl:/downloader/",
    "site:" ++ domain ++ " intext:\"Mage.Cookies.path\"",
    "site:" ++ domain ++ " inurl:/admin_SOMETHING",
    "site:" ++ domain ++ " inurl:\"/administrator/\"",
    "site:" ++ domain ++ " inurl:\"/admin/\" OR inurl:\"/cp/\" OR inurl:\"/backend/\"" ]

/-- `generateEcommerceDorks` from `dorks-config.js`. -/
def generateEcommerceDorks (domain : String) : List String :=
  [ "site:" ++ domain ++ " inurl:/checkout/ OR inurl:/cart/ OR inurl:/basket/",
    "site:" ++ domain ++ " inurl:/order OR inurl:/payment OR inurl:/transaction",
    "site:" ++ domain ++ " intext:\"credit card\" OR intext:\"card number\"",
    "site:" ++ domain ++ " inurl:checkout.php OR inurl:checkout.asp OR inurl:checkout.jsp",
    "site:" ++ domain ++ " intext:\"cvv\" OR intext:\"cvc\" inurl:payment",
    "site:" ++ domain ++ " intext:\"payment gateway\" OR intext:\"gateway id\"",
    "site:" ++ domain ++ " intext:\"CHECKOUT_SESSION_ID\"",
    "site:" ++ domain ++ " filetype:log intext:payment" ]

/-! ## domain-config.js -/

/-- `TARGET_DOMAIN` from `domain-config.js`. -/
def TARGET_DOMAIN : String := "tesla.com"

/-- `ALTERNATIVE_DOMAINS` from `domain-config.js`. -/
def ALTERNATIVE_DOMAINS : List String := ["adm.tesla.com", "web.tesla.com"]

/-- The `DOMAIN_SETTINGS` object of `domain-config.js`. -/
structure DomainSettings where
  includeSubdomains : Bool
  includeVariations : Bool
  limitPaths : Bool
  paths : List String

/-- `DOMAIN_SETTINGS` from `domain-config.js`. -/
def DOMAIN_SETTINGS : DomainSettings :=
  { includeSubdomains := true
    includeVariations := true
    limitPaths := false
    paths := ["/wp-content", "/admin", "/api"] }

/-! ## dork-scanner.js: generateDorksList -/

/-- The `types.forEach` + `switch` accumulation at the top of
`generateDorksList` (`dork-scanner.js`): concatenates the selected category
generators in selection order. -/
def categoryDorks (types : List Nat) (domain : String) : List String :=
  types.foldl (fun dorks type =>
    if type = 1 then dorks ++ generateGenericDorks domain
    else if type = 2 then dorks ++ generateAEMDorks domain
    else if type = 3 then dorks ++ generateCMSDorks domain
    else if type = 4 then dorks ++ generateEcommerceDorks domain
    else dorks) []

/-- The alternate-domain probes pushed by `generateDorksList` for each entry
of `ALTERNATIVE_DOMAINS` (three fixed probes per alternate domain). -/
def alternativeDorks : List String :=
  ALTERNATIVE_DOMAINS.foldl (fun dorks altDomain =>
    dorks ++ [ "site:" ++ altDomain,
               "site:" ++ altDomain ++ " inurl:admin",
               "site:" ++ altDomain ++ " filetype:log" ]) []

/-- The path-restricted probes pushed by `generateDorksList` for each entry
of `DOMAIN_SETTINGS.paths`. -/
def pathDorks (domain : String) : List String :=
  DOMAIN_SETTINGS.paths.foldl (fun dorks path =>
    dorks ++ ["site:" ++ domain ++ " inurl:" ++ path]) []

/-- `generateDorksList` from `dork-scanner.js`: category dorks in selection
order, then the alternate-domain probes (guarded by
`DOMAIN_SETTINGS.includeVariations && ALTERNATIVE_DOMAINS.length > 0`), then
the path probes (guarded by
`DOMAIN_SETTINGS.limitPaths && DOMAIN_SETTINGS.paths.length > 0`), finally
deduplicated with `[...new Set(dorks)]`. -/
def generateDorksList (types : List Nat) (domain : String) : List String :=
  jsSetDedup
    (categoryDorks types domain
      ++ (if DOMAIN_SETTINGS.includeVariations = true ∧ 0 < ALTERNATIVE_DOMAINS.length
          then alternativeDorks else [])
      ++ (if DOMAIN_SETTINGS.limitPaths = true ∧ 0 < DOMAIN_SETTINGS.paths.length
          then pathDorks domain else []))

theorem generateGenericDorks_contains (domain : String) :
    ∀ s ∈ generateGenericDorks domain, domain.data <:+: s.data := by
  rw [← List.forall_iff_forall_mem]
  simp only [generateGenericDorks, List.Forall]
  repeat' apply And.intro
  all_goals first
    | exact data_mid _ _ _
    | exact data_end _ _
    | trivial

theorem generateAEMDorks_contains (domain : String) :
    ∀ s ∈ generateAEMDorks domain, domain.data <:+: s.data := by
  rw [← List.forall_iff_forall_mem]
  simp only [generateAEMDorks, List.Forall]
  repeat' apply And.intro
  all_goals first
    | exact data_mid _ _ _
    | exact data_end _ _
    | trivial

theorem generateCMSDorks_contains (domain : String) :
    ∀ s ∈ generateCMSDorks domain, domain.data <:+: s.data := by
  rw [← List.forall_iff_forall_mem]
  simp only [generateCMSDorks, List.Forall]
  repeat' apply And.intro
  all_goals first
    | exact data_mid _ _ _
    | exact data_end _ _
    | trivial

theorem generateEcommerceDorks_contains (domain : String) :
    ∀ s ∈ generateEcommerceDorks domain, domain.data <:+: s.data := by
  rw [← List.forall_iff_forall_mem]
  simp only [generateEcommerceDorks, List.Forall]
  repeat' apply And.intro
  all_goals first
    | exact data_mid _ _ _
    | exact data_end _ _
    | trivial

theorem mem_categoryDorks (domain : String) :
    ∀ (types : List Nat) (init : List String) (s : String),
      s ∈ types.foldl (fun dorks type =>
          if type = 1 then dorks ++ generateGenericDorks domain
          else if type = 2 then dorks ++ generateAEMDorks domain
          else if type = 3 then dorks ++ generateCMSDorks domain
          else if type = 4 then dorks ++ generateEcommerceDorks domain
          else dorks) init →
      s ∈ init ∨ domain.data <:+: s.data := by
  intro types
  induction types with
  | nil => intro init s hs; exact Or.inl hs
  | cons t ts ih =>
    intro init s hs
    rw [List.foldl_cons] at hs
    rcases ih _ s hs with h | h
    · by_cases h1 : t = 1
      · simp only [h1, if_true] at h
        rcases List.mem_append.mp h with h | h
        · exact Or.inl h
        · exact Or.inr (generateGenericDorks_contains domain s h)
      · by_cases h2 : t = 2
        · simp only [h1, h2, if_false, if_true] at h
          rcases List.mem_append.mp h with h | h
          · exact Or.inl h
          · exact Or.inr (generateAEMDorks_contains domain s h)
        · by_cases h3 : t = 3
          · simp only [h1, h2, h3, if_false, if_true] at h
            rcases List.mem_append.mp h with h | h
            · exact Or.inl h
            · exact Or.inr (generateCMSDorks_contains domain s h)
          · by_cases h4 : t = 4
            · simp only [h1, h2, h3, h4, if_false, if_true] at h
              rcases List.mem_append.mp h with h | h
              · exact Or.inl h
              · exact Or.inr (generateEcommerceDorks_contains domain s h)
            · simp only [h1, h2, h3, h4, if_false] at h
              exact Or.inl h
    · exact Or.inr h

theorem mem_alternativeDorks :
    ∀ s ∈ alternativeDorks,
      ∃ alt ∈ ALTERNATIVE_DOMAINS,
        s = "site:" ++ alt ∨ s = "site:" ++ alt ++ " inurl:admin" ∨
        s = "site:" ++ alt ++ " filetype:log" := by
  decide

theorem generateDorksList_eq (types : List Nat) (domain : String) :
    generateDorksList types domain =
      jsSetDedup (categoryDorks types domain ++ alternativeDorks) := by
  simp [generateDorksList, DOMAIN_SETTINGS, ALTERNATIVE_DOMAINS]

/-! ## utils.js: checkpoint store -/

/-- The checkpoint record written by `saveCheckpoint` (`utils.js`) as JSON:
`{ lastIndex, reportContent, processedDorks, timestamp }`. The sentinel
returned by `loadCheckpoint` when no file exists (or parsing fails) carries
no timestamp, hence `Option String`. -/
structure Checkpoint where
  lastIndex : Int
  reportContent : Option String
  processedDorks : List String
  timestamp : Option String

/-- `loadCheckpoint` from `utils.js`. The checkpoint file is modelled as
`Option Checkpoint`: `none` covers both an absent file and an unparsable
one (both fall through to the sentinel `{lastIndex: -1, reportContent:
null, processedDorks: []}`). -/
def loadCheckpoint (checkpointFile : Option Checkpoint) : Checkpoint :=
  match checkpointFile with
  | some checkpoint => checkpoint
  | none => { lastIndex := -1, reportContent := none, processedDorks := [],
              timestamp := none }

/-- `saveCheckpoint` from `utils.js`: overwrites the checkpoint file with
`{ lastIndex := index, reportContent, processedDorks, timestamp }`. The
function returns the new file content (a successful `fs.writeFile`). -/
def saveCheckpoint (checkpointFile : Option Checkpoint) (index : Int)
    (reportContent : Option String) (processedDorks : List String)
    (timestamp : String) : Option Checkpoint :=
  let _ := checkpointFile
  some { lastIndex := index, reportContent := reportContent,
         processedDorks := processedDorks, timestamp := some timestamp }

/-! ## dork-scanner.js: scan driver -/

/-- `MANUAL_VALIDATION_MODE` from `dork-scanner.js`. -/
def MANUAL_VALIDATION_MODE : Bool := true

/-- `SAVE_CHECKPOINT` from `dork-scanner.js`. -/
def SAVE_CHECKPOINT : Bool := true

/-- The per-dork result record built by `displayOnlyDorkInfo`
(`dork-scanner.js`). The JS object literal has no `manuallyChecked`
property; the field is `Option Bool` with `none` modelling the absent
(undefined, hence falsy) property. -/
structure DorkInfo where
  dork : String
  searchEngine : String
  searchUrl : String
  timestamp : String
  manuallyChecked : Option Bool := none

/-- JS truthiness of the optional `manuallyChecked` property: an absent
property is falsy. -/
def truthy (b : Option Bool) : Bool := b.getD false

/-- External inputs consumed by one scan run, one value per interaction:
`enc` models the platform builtin `encodeURIComponent`; `engineAt i` the
random engine drawn by `getRandomSearchEngine()` while processing index
`i`; `verifyAnswer i` the operator's reply to `askUserToCheckUrl`;
`nowAt i` the `new Date().toISOString()` timestamp taken at index `i`. -/
structure ScanEnv where
  enc : String → String
  engineAt : Nat → SearchEngine
  verifyAnswer : Nat → String
  nowAt : Nat → String

/-- The decision made from the operator's answer in `askUserToCheckUrl`
(`dork-scanner.js`): `answer.toLowerCase() === 's'`. -/
def askUserToCheckUrl (answer : String) : Bool := jsToLower answer == "s"

/-- `displayOnlyDorkInfo` from `dork-scanner.js`: builds the search URL and
the per-dork record (without accessing the site). `index` and `totalDorks`
are only used for console output in the source. -/
def displayOnlyDorkInfo (env : ScanEnv) (dork : String) (index totalDorks : Nat)
    (searchEngine : SearchEngine) : DorkInfo :=
  let _ := totalDorks
  { dork := dork
    searchEngine := searchEngine.name
    searchUrl := searchEngine.url ++ env.enc dork
    timestamp := env.nowAt index }

/-- Observable actions of the scan driver, in program order: `display i d`
is the console display of dork `d` at index `i` (the start of its
processing), `browse i` the manual browser verification session opened by
`openBrowserForUrl` (concluded, browser closed, before the event is
emitted), and `save i` the checkpoint write `saveCheckpoint(file, i, ...)`
for index `i`. -/
inductive Event where
  | display (i : Nat) (dork : String)
  | browse (i : Nat)
  | save (i : Nat)
deriving DecidableEq

/-- `processDorkDisplayMode` from `dork-scanner.js`: displays the dork with
a randomly chosen engine, and under `MANUAL_VALIDATION_MODE` asks the
operator whether to open a browser for manual verification. Returns the
result record and the trace of actions performed (the browser session, if
any, is fully contained in the returned trace). -/
def processDorkDisplayMode (env : ScanEnv) (dork : String) (index totalDorks : Nat) :
    DorkInfo × List Event :=
  let searchEngine := env.engineAt index
  let result := displayOnlyDorkInfo env dork index totalDorks searchEngine
  (result,
    Event.display index dork ::
      (if MANUAL_VALIDATION_MODE && askUserToCheckUrl (env.verifyAnswer index)
       then [Event.browse index] else []))

/-- Aggregate outcome of the driver loop: the ordered action trace, the
`results` array, and the final `stats.manuallyChecked` counter. -/
structure ScanOut where
  events : List Event
  results : List DorkInfo
  manuallyChecked : Nat

/-- The `for (let i = startIndex; i < dorks.length; i++)` loop of
`runMultiEngineDorkScan` (`dork-scanner.js`): skip a dork already in
`processedDorks`; otherwise process it via `processDorkDisplayMode`, append
the result, bump `stats.manuallyChecked` when the driver's increment
condition `MANUAL_VALIDATION_MODE && result.manuallyChecked` holds, and
save a checkpoint for index `i` (guarded by `SAVE_CHECKPOINT`). -/
def scanLoopAux (env : ScanEnv) (dorks : List String) (processedDorks : List String)
    (i : Nat) : ScanOut :=
  if h : i < dorks.length then
    let dork := dorks[i]
    if dork ∈ processedDorks then
      scanLoopAux env dorks processedDorks (i + 1)
    else
      let pr := processDorkDisplayMode env dork i dorks.length
      let rest := scanLoopAux env dorks (processedDorks ++ [dork]) (i + 1)
      { events := pr.2 ++ (if SAVE_CHECKPOINT then [Event.save i] else []) ++ rest.events
        results := pr.1 :: rest.results
        manuallyChecked :=
          (if MANUAL_VALIDATION_MODE && truthy pr.1.manuallyChecked then 1 else 0)
            + rest.manuallyChecked }
  else
    { events := [], results := [], manuallyChecked := 0 }
termination_by dorks.length - i

/-- `runMultiEngineDorkScan` from `dork-scanner.js`, restricted to the
resume logic and driver loop: load the checkpoint, start at
`checkpoint.lastIndex + 1`, seed `processedDorks` from the checkpoint and
iterate. -/
def runMultiEngineDorkScan (env : ScanEnv) (checkpointFile : Option Checkpoint)
    (dorks : List String) : ScanOut :=
  let checkpoint := loadCheckpoint checkpointFile
  let startIndex := checkpoint.lastIndex + 1
  let processedDorks := checkpoint.processedDorks
  scanLoopAux env dorks processedDorks startIndex.toNat

/-! ## human-interaction.js: challenge detector -/

/-- The object returned by the in-page callback of `detectCaptchaOrBlock`:
`{detected, reason}`. -/
structure DetectionResult where
  detected : Bool
  reason : Option String
deriving DecidableEq

/-- The DOM state read by the detector's in-page callback: whether
`document.body` exists, its `innerText`, which CSS selectors
`document.querySelector` finds, and the number of grid-like images matched
by `table td img, div.rc-imageselect-tile`. -/
structure Dom where
  hasBody : Bool
  innerText : String
  querySelector : String → Bool
  gridImagesLength : Nat

/-- The `blockKeywords` array inside `detectCaptchaOrBlock`
(`human-interaction.js`). -/
def blockKeywords : List String :=
  [ "captcha", "robot", "automated", "bot check", "suspicious activity",
    "unusual traffic", "security check", "human verification",
    "verify you are human", "are you a robot", "challenge", "blocked",
    "access denied", "denied access", "too many requests",
    "rate limit exceeded", "please wait", "suspicious", "behavior detected",
    "verifica" ]

/-- The `captchaSelectors` array inside `detectCaptchaOrBlock`
(`human-interaction.js`). -/
def captchaSelectors : List String :=
  [ "iframe[src*=\"recaptcha\"]", "iframe[src*=\"captcha\"]",
    "iframe[src*=\"hcaptcha\"]", "iframe[src*=\"funcaptcha\"]",
    "iframe[src*=\"arkoselabs\"]", "div.g-recaptcha", "div.h-captcha",
    "div#captcha", "div.captcha", "input[name*=\"captcha\"]",
    "img[alt*=\"captcha\"]", "form[action*=\"captcha\"]" ]

/-- The in-page evaluation callback of `detectCaptchaOrBlock`: lower-cased
body text scanned against `blockKeywords` (first match wins), then the
`captchaSelectors` probes (first present selector wins), then the
image-grid heuristic (`> 4` tiles); a missing `document.body` returns
`detected = false` before any of those checks. -/
def evalDetect (dom : Dom) : DetectionResult :=
  let bodyText := if dom.hasBody then jsToLower dom.innerText else ""
  if dom.hasBody = false then
    { detected := false, reason := some "Body não disponível" }
  else
    match blockKeywords.find? (fun keyword => jsIncludes bodyText keyword) with
    | some keyword =>
        { detected := true,
          reason := some ("Texto da página contém \"" ++ keyword ++ "\"") }
    | none =>
      match captchaSelectors.find? (fun selector => dom.querySelector selector) with
      | some selector =>
          { detected := true,
            reason := some ("Elemento captcha encontrado: \"" ++ selector ++ "\"") }
      | none =>
        if dom.gridImagesLength > 4 then
          { detected := true,
            reason := some "Grid de imagens encontrado (possível reCAPTCHA)" }
        else
          { detected := false, reason := none }

/-- A page handle as seen by `detectCaptchaOrBlock`: whether
`page.isClosed()` holds, whether the `page.evaluate` call itself throws
(`evalFails`), and the DOM the callback would observe otherwise. -/
structure Page where
  closed : Bool
  evalFails : Bool
  dom : Dom

/-- `detectCaptchaOrBlock` from `human-interaction.js`: throws on a
closed/unavailable page, returns `true` when the in-page evaluation throws
(the `catch` branch: fail-safe), otherwise the `detected` flag of the
evaluation. -/
def detectCaptchaOrBlock (page : Page) : Except String Bool :=
  if page.closed then
    Except.error "Página não está disponível para detectar captcha"
  else if page.evalFails then
    Except.ok true
  else
    Except.ok (evalDetect page.dom).detected

/-! ## human-interaction.js: human handoff controller -/

/-- External inputs consumed by `waitForCaptchaResolution`, one value per
re-check cycle `k` of the `AwaitingHuman` loop: `answers k` is the
operator's input to the continue/skip prompt, `closedAt k` whether the page
is closed when re-checked, `recheck k` the detector outcome (`none` models
the detector call throwing), and `durMs k` the milliseconds the cycle
consumed (waiting on the operator); each cycle consumes at least one
millisecond, so the wall clock advances by `durMs k + 1`. `initialDetect`
is the outcome of the initial detector call (`none` = it threw) and
`pageClosedInitially` the initial `page.isClosed()` test. -/
structure HandoffEnv where
  pageClosedInitially : Bool
  initialDetect : Option Bool
  answers : Nat → String
  closedAt : Nat → Bool
  recheck : Nat → Option Bool
  durMs : Nat → Nat

/-- The skip-token test of `waitForCaptchaResolution`:
`lastAnswer.toLowerCase() === 'skip'`. -/
def isSkip (answer : String) : Bool := jsToLower answer == "skip"

/-- The `while (Date.now() - startTime < timeoutMs && !resolved)` loop of
`waitForCaptchaResolution` (`human-interaction.js`), entered at cycle `k`
with `elapsed` ms consumed. Each cycle: prompt the operator (skip token
returns `false`), bail out with `false` if the page closed, then re-run the
detector — no longer blocked exits the loop resolved (`true`), still
blocked continues, and a thrown detector error is assumed resolved
(`true`). Reaching the timeout with the challenge unresolved returns
`false`. -/
def captchaLoop (env : HandoffEnv) (timeoutMs elapsed k : Nat) : Bool :=
  if elapsed < timeoutMs then
    if isSkip (env.answers k) then false
    else if env.closedAt k then false
    else
      match env.recheck k with
      | some false => true
      | some true => captchaLoop env timeoutMs (elapsed + env.durMs k + 1) (k + 1)
      | none => true
  else false
termination_by timeoutMs - elapsed

/-- `waitForCaptchaResolution` from `human-interaction.js`: `false` for an
already-closed page; otherwise run the initial detector (an error counts as
"needs interaction"); when no interaction is needed return `true`
immediately, else enter the `AwaitingHuman` re-check loop. -/
def waitForCaptchaResolution (env : HandoffEnv) (timeoutMs : Nat) : Bool :=
  if env.pageClosedInitially then false
  else
    let needsHumanInteraction :=
      match env.initialDetect with
      | some b => b
      | none => true
    if needsHumanInteraction then captchaLoop env timeoutMs 0 0
    else true

/-! ## human-interaction.js: page stability waiter -/

/-- External inputs consumed by `waitForPageStability`, indexed by elapsed
milliseconds `t` since the call (the loop polls at `t = 0, 500, 1000, …`):
`closedAt t` is `page.isClosed()` at that poll, `statsAt t` the
`{lastChange, domSize}` pair the in-page evaluation returns (`none` models
the evaluation throwing), and `installOk` whether the initial
observer-installing evaluation succeeded. -/
structure StabilityEnv where
  closedAt : Nat → Bool
  statsAt : Nat → Option (Nat × Nat)
  installOk : Bool

/-- The `domSize` component observed at elapsed time `t`. -/
def szAt (env : StabilityEnv) (t : Nat) : Nat := ((env.statsAt t).getD (0, 0)).2

/-- The polling loop of `waitForPageStability` (`human-interaction.js`),
at elapsed time `t` with host-side state `lastChangeTime` (elapsed time of
the last observed DOM-size change) and `domSize` (last observed size).
While `t < maxWaitTime`: a closed page throws; a throwing evaluation
returns `false`; a changed DOM size resets `lastChangeTime` to now; a
quiet window of `stableTime` returns `true`; otherwise sleep 500 ms. The
loop falling off the end (time ceiling reached) returns `true`. -/
def stabilityLoop (env : StabilityEnv) (stableTime maxWaitTime t lastChangeTime domSize : Nat) :
    Except String Bool :=
  if t < maxWaitTime then
    if env.closedAt t then
      Except.error "Página fechada durante aguardo de estabilidade"
    else
      match env.statsAt t with
      | none => Except.ok false
      | some stats =>
        let lct := if stats.2 ≠ domSize then t else lastChangeTime
        if stableTime ≤ t - lct then Except.ok true
        else stabilityLoop env stableTime maxWaitTime (t + 500) lct stats.2
  else
    Except.ok true
termination_by maxWaitTime - t
decreasing_by omega

/-- `waitForPageStability` from `human-interaction.js`: a closed page
throws before anything else; a failing observer installation returns
`false`; otherwise the polling loop starts at `t = 0` with
`lastChangeTime = startTime` and `domSize = 0`. -/
def waitForPageStability (env : StabilityEnv) (stableTime maxWaitTime : Nat) :
    Except String Bool :=
  if env.closedAt 0 then
    Except.error "Página não está disponível para aguardar estabilidade"
  else if env.installOk = false then
    Except.ok false
  else
    stabilityLoop env stableTime maxWaitTime 0 0 0

/-! ## Helper lemmas for the claim theorems -/

theorem categoryDorks_mono (domain : String) :
    ∀ (types : List Nat) (init : List String) (s : String),
      s ∈ init →
      s ∈ types.foldl (fun dorks type =>
          if type = 1 then dorks ++ generateGenericDorks domain
          else if type = 2 then dorks ++ generateAEMDorks domain
          else if type = 3 then dorks ++ generateCMSDorks domain
          else if type = 4 then dorks ++ generateEcommerceDorks domain
          else dorks) init := by
  intro types
  induction types with
  | nil => intro init s hs; exact hs
  | cons t ts ih =>
    intro init s hs
    rw [List.foldl_cons]
    apply ih
    by_cases h1 : t = 1
    · simp only [h1, if_true]; exact List.mem_append_left _ hs
    · by_cases h2 : t = 2
      · simp only [h1, h2, if_false, if_true]; exact List.mem_append_left _ hs
      · by_cases h3 : t = 3
        · simp only [h1, h2, h3, if_false, if_true]; exact List.mem_append_left _ hs
        · by_cases h4 : t = 4
          · simp only [h1, h2, h3, h4, if_false, if_true]; exact List.mem_append_left _ hs
          · simp only [h1, h2, h3, h4, if_false]; exact hs

/-! ## Claim theorems -/

/-- C4: for every checkpoint-file state, index, report content,
processed-dork list and timestamp, loading the checkpoint immediately after
saving it reproduces the index as `lastIndex` and the processed-dork set
exactly (in particular up to order-irrelevant membership equality). -/
theorem checkpoint_roundtrip (checkpointFile : Option Checkpoint) (index : Int)
    (reportContent : Option String) (processedDorks : List String)
    (timestamp : String) :
    (loadCheckpoint (saveCheckpoint checkpointFile index reportContent
        processedDorks timestamp)).lastIndex = index ∧
    (loadCheckpoint (saveCheckpoint checkpointFile index reportContent
        processedDorks timestamp)).processedDorks = processedDorks ∧
    ∀ d, d ∈ (loadCheckpoint (saveCheckpoint checkpointFile index reportContent
        processedDorks timestamp)).processedDorks ↔ d ∈ processedDorks :=
  ⟨rfl, rfl, fun _ => Iff.rfl⟩

/-- C2: for every page handle that is still open, if the in-page evaluation
performed by `detectCaptchaOrBlock` throws, the function returns
`detected = true` (fail-safe toward assuming a challenge exists). -/
theorem detect_eval_error_fail_safe (page : Page) (hopen : page.closed = false)
    (hthrow : page.evalFails = true) :
    detectCaptchaOrBlock page = Except.ok true := by
  simp [detectCaptchaOrBlock, hopen, hthrow]

theorem detect_eval_error_fail_safe_witness :
    detectCaptchaOrBlock
      { closed := false, evalFails := true,
        dom := { hasBody := true, innerText := "", querySelector := fun _ => false,
                 gridImagesLength := 0 } } = Except.ok true :=
  detect_eval_error_fail_safe _ rfl rfl

/-- C10: for every open page whose evaluation succeeds but whose document
has no body element, `detectCaptchaOrBlock` returns `false` — whatever the
body text, the selector probes and the image-grid count would have said. -/
theorem detect_no_body_not_detected (page : Page) (hopen : page.closed = false)
    (heval : page.evalFails = false) (hbody : page.dom.hasBody = false) :
    detectCaptchaOrBlock page = Except.ok false := by
  simp [detectCaptchaOrBlock, hopen, heval, evalDetect, hbody]

theorem detect_no_body_not_detected_witness :
    detectCaptchaOrBlock
      { closed := false, evalFails := false,
        dom := { hasBody := false, innerText := "captcha blocked robot",
                 querySelector := fun _ => true,
                 gridImagesLength := 100 } } = Except.ok false :=
  detect_no_body_not_detected _ rfl rfl rfl

/-- C3: for every domain `D` and every category selection, the generated
dork list contains no duplicate strings, and every element contains `D` as
a substring, or is one of the three fixed alternate-domain probes for a
configured alternate domain, or is a path-derived `site:D inurl:path`
string for a configured path. -/
theorem generateDorksList_spec (types : List Nat) (domain : String) :
    (generateDorksList types domain).Nodup ∧
    ∀ s ∈ generateDorksList types domain,
      domain.data <:+: s.data ∨
      (∃ alt ∈ ALTERNATIVE_DOMAINS,
        s = "site:" ++ alt ∨ s = "site:" ++ alt ++ " inurl:admin" ∨
        s = "site:" ++ alt ++ " filetype:log") ∨
      (∃ p ∈ DOMAIN_SETTINGS.paths, s = "site:" ++ domain ++ " inurl:" ++ p) := by
  constructor
  · rw [generateDorksList_eq]
    exact jsSetDedup_nodup _
  · intro s hs
    rw [generateDorksList_eq] at hs
    have hmem := mem_of_mem_jsSetDedup hs
    rcases List.mem_append.mp hmem with h | h
    · rcases mem_categoryDorks domain types [] s h with h0 | h0
      · simp at h0
      · exact Or.inl h0
    · exact Or.inr (Or.inl (mem_alternativeDorks s h))

/-- C8 (counterexample): on the invalid (empty) domain string the generator
does not fail — it silently returns an ordinary dork list, containing in
particular the template `site:\{domain} filetype:log` with the empty domain
interpolated. -/
theorem generateDorksList_no_error_on_empty_domain :
    "site: filetype:log" ∈ generateDorksList [1] "" ∧
    generateDorksList [1] "" ≠ [] := by
  have h1 : "site: filetype:log" ∈ generateDorksList [1] "" := by
    rw [generateDorksList_eq]
    apply mem_jsSetDedup_of_mem
    apply List.mem_append_left
    show _ ∈ categoryDorks [1] ""
    simp [categoryDorks, generateGenericDorks]
  exact ⟨h1, List.ne_nil_of_mem h1⟩

/-- C8 (amended): the dork generator is a total pure function that never
signals an error: for every domain string — valid, malformed or empty —
and every category selection including the generic category, it silently
returns a dork list that contains the interpolated entry
`site:<domain> filetype:log` (in particular the list is non-empty). -/
theorem generateDorksList_total (types : List Nat) (domain : String) :
    ("site:" ++ domain ++ " filetype:log") ∈ generateDorksList (1 :: types) domain ∧
    generateDorksList (1 :: types) domain ≠ [] := by
  have h1 : ("site:" ++ domain ++ " filetype:log")
      ∈ generateDorksList (1 :: types) domain := by
    rw [generateDorksList_eq]
    apply mem_jsSetDedup_of_mem
    apply List.mem_append_left
    show _ ∈ categoryDorks (1 :: types) domain
    unfold categoryDorks
    rw [List.foldl_cons]
    apply categoryDorks_mono
    simp [generateGenericDorks]
  exact ⟨h1, List.ne_nil_of_mem h1⟩

/-- C6: in the `AwaitingHuman` re-check loop, when cycle `k` is reached
(time budget not yet exhausted), the operator did not issue the skip token
and the page is still open, a detector call that throws is treated as
resolved: the loop returns `true` at once. Moreover — asymmetrically — an
error in the initial detector check is treated as blocked: the controller
enters the re-check loop instead of reporting success directly. -/
theorem recheck_error_assumed_resolved (env : HandoffEnv)
    (timeoutMs elapsed k : Nat)
    (hopen : env.pageClosedInitially = false) (hinit : env.initialDetect = none)
    (ht : elapsed < timeoutMs) (hskip : isSkip (env.answers k) = false)
    (hpage : env.closedAt k = false) (herr : env.recheck k = none) :
    captchaLoop env timeoutMs elapsed k = true ∧
    waitForCaptchaResolution env timeoutMs = captchaLoop env timeoutMs 0 0 := by
  constructor
  · rw [captchaLoop]
    simp [ht, hskip, hpage, herr]
  · simp [waitForCaptchaResolution, hopen, hinit]

theorem recheck_error_assumed_resolved_witness :
    captchaLoop
      { pageClosedInitially := false, initialDetect := none,
        answers := fun _ => "", closedAt := fun _ => false,
        recheck := fun _ => none, durMs := fun _ => 1000 } 60000 0 0 = true ∧
    waitForCaptchaResolution
      { pageClosedInitially := false, initialDetect := none,
        answers := fun _ => "", closedAt := fun _ => false,
        recheck := fun _ => none, durMs := fun _ => 1000 } 60000 =
    captchaLoop
      { pageClosedInitially := false, initialDetect := none,
        answers := fun _ => "", closedAt := fun _ => false,
        recheck := fun _ => none, durMs := fun _ => 1000 } 60000 0 0 :=
  recheck_error_assumed_resolved _ 60000 0 0 rfl rfl (by norm_num)
    (by decide) rfl rfl

/-- C7: if the operator issues the skip token at a cycle of the
`AwaitingHuman` loop that has been reached before the timeout, the loop
returns `false` in that very cycle, with no further re-check cycle and
without waiting for the remaining time budget; consequently a blocked page
whose operator skips at the first prompt makes `waitForCaptchaResolution`
return `false`. -/
theorem skip_token_returns_false (env : HandoffEnv) (timeoutMs elapsed k : Nat)
    (ht : elapsed < timeoutMs) (hskip : isSkip (env.answers k) = true) :
    captchaLoop env timeoutMs elapsed k = false ∧
    (env.pageClosedInitially = false → env.initialDetect = some true →
      0 < timeoutMs → isSkip (env.answers 0) = true →
      waitForCaptchaResolution env timeoutMs = false) := by
  constructor
  · rw [captchaLoop]
    simp [ht, hskip]
  · intro hopen hinit ht0 hskip0
    simp only [waitForCaptchaResolution, hopen, hinit]
    rw [captchaLoop]
    simp [ht0, hskip0]

theorem skip_token_returns_false_witness :
    captchaLoop
      { pageClosedInitially := false, initialDetect := some true,
        answers := fun _ => "Skip", closedAt := fun _ => false,
        recheck := fun _ => some true, durMs := fun _ => 1000 } 60000 0 0 = false ∧
    waitForCaptchaResolution
      { pageClosedInitially := false, initialDetect := some true,
        answers := fun _ => "Skip", closedAt := fun _ => false,
        recheck := fun _ => some true, durMs := fun _ => 1000 } 60000 = false := by
  have h := skip_token_returns_false
    { pageClosedInitially := false, initialDetect := some true,
      answers := fun _ => "Skip", closedAt := fun _ => false,
      recheck := fun _ => some true, durMs := fun _ => 1000 } 60000 0 0
    (by norm_num) (by decide)
  exact ⟨h.1, h.2 rfl rfl (by norm_num) (by decide)⟩

theorem stabilityLoop_no_error (env : StabilityEnv) (s m : Nat)
    (hcl : ∀ t, env.closedAt t = false) :
    ∀ (fuel t lct ds : Nat), m ≤ t + fuel →
      ∃ b, stabilityLoop env s m t lct ds = Except.ok b := by
  intro fuel
  induction fuel with
  | zero =>
    intro t lct ds hm
    rw [stabilityLoop]
    simp [show ¬ t < m by omega]
  | succ n ih =>
    intro t lct ds hm
    rw [stabilityLoop]
    by_cases hlt : t < m
    · simp only [hlt, if_true, hcl t, Bool.false_eq_true, if_false]
      cases hstat : env.statsAt t with
      | none => exact ⟨false, rfl⟩
      | some stats =>
        dsimp only
        by_cases hstable : s ≤ t - (if stats.2 ≠ ds then t else lct)
        · exact ⟨true, by rw [if_pos hstable]⟩
        · rw [if_neg hstable]
          exact ih (t + 500) _ _ (by omega)
    · simp [hlt]

theorem stabilityLoop_changing_true (env : StabilityEnv) (s m : Nat)
    (hcl : ∀ t, env.closedAt t = false)
    (hsome : ∀ t, (env.statsAt t).isSome = true)
    (hs : 0 < s)
    (hch : ∀ u, szAt env (u + 500) ≠ szAt env u) :
    ∀ (fuel t lct ds : Nat), m ≤ t + fuel → ds ≠ szAt env t →
      stabilityLoop env s m t lct ds = Except.ok true := by
  intro fuel
  induction fuel with
  | zero =>
    intro t lct ds hm hne
    rw [stabilityLoop]
    simp [show ¬ t < m by omega]
  | succ n ih =>
    intro t lct ds hm hne
    rw [stabilityLoop]
    by_cases hlt : t < m
    · simp only [hlt, if_true, hcl t, Bool.false_eq_true, if_false]
      obtain ⟨p, hp⟩ := Option.isSome_iff_exists.mp (hsome t)
      rw [hp]
      dsimp only
      have hpz : p.2 = szAt env t := by simp [szAt, hp]
      have hne2 : p.2 ≠ ds := fun hcon => hne (hpz ▸ hcon).symm
      rw [if_pos hne2]
      rw [if_neg (show ¬ s ≤ t - t by omega)]
      exact ih (t + 500) t p.2 (by omega)
        (fun hcon => hch t (hcon.symm.trans hpz))
    · simp [hlt]

/-- C5: for every page that stays open, `waitForPageStability` never raises
a hard error (the error branches fire only on a closed/unavailable page);
and when the observer installs, every poll evaluation succeeds and the DOM
size keeps changing at every poll — so that no stable window is ever
observed — the `maxWaitTime` ceiling is reached and the function still
returns `true` (timeout treated as acceptable stability, not failure). -/
theorem waitForPageStability_spec (env : StabilityEnv) (stableTime maxWaitTime : Nat)
    (hcl : ∀ t, env.closedAt t = false) :
    (∃ b, waitForPageStability env stableTime maxWaitTime = Except.ok b) ∧
    (env.installOk = true → (∀ t, (env.statsAt t).isSome = true) →
     0 < stableTime → (∀ u, szAt env (u + 500) ≠ szAt env u) → szAt env 0 ≠ 0 →
     waitForPageStability env stableTime maxWaitTime = Except.ok true) := by
  constructor
  · unfold waitForPageStability
    simp only [hcl 0, Bool.false_eq_true, if_false]
    cases hio : env.installOk with
    | false => exact ⟨false, by simp⟩
    | true =>
      simp only [Bool.true_eq_false, if_false]
      exact stabilityLoop_no_error env _ _ hcl maxWaitTime 0 0 0 (by omega)
  · intro hio hsome hs hch h0
    unfold waitForPageStability
    simp only [hcl 0, Bool.false_eq_true, if_false, hio, Bool.true_eq_false]
    exact stabilityLoop_changing_true env _ _ hcl hsome hs hch maxWaitTime 0 0 0
      (by omega) (fun hcon => h0 hcon.symm)

theorem waitForPageStability_spec_witness :
    waitForPageStability
      { closedAt := fun _ => false, statsAt := fun t => some (0, t + 1),
        installOk := true } 3000 20000 = Except.ok true :=
  (waitForPageStability_spec
    { closedAt := fun _ => false, statsAt := fun t => some (0, t + 1),
      installOk := true } 3000 20000 (fun _ => rfl)).2 rfl (fun _ => rfl)
    (by norm_num) (fun u => by simp [szAt]) (by simp [szAt])

/-- A concrete scan environment used to witness the driver theorems:
identity URL encoding, always the Google engine, the operator always
answering "s", a fixed clock. -/
def sampleScanEnv : ScanEnv :=
  { enc := fun s => s
    engineAt := fun _ =>
      { name := "Google", url := "https://www.google.com/search?q=",
        resultSelector := "div.g", titleSelector := "h3", linkSelector := "a",
        snippetSelector := "div.VwiC3b", statsSelector := "#result-stats",
        cookieAcceptSelector := "button[id=\"L2AGLb\"]" }
    verifyAnswer := fun _ => "s"
    nowAt := fun _ => "2025-01-01T00:00:00.000Z" }

/-- A concrete checkpoint file used to witness the driver theorems:
index 0 already processed, dork "a" recorded. -/
def sampleCheckpointFile : Option Checkpoint :=
  some { lastIndex := 0, reportContent := none, processedDorks := ["a"],
         timestamp := some "2025-01-01T00:00:00.000Z" }

theorem scanLoopAux_stop (env : ScanEnv) (dorks processed : List String) (i : Nat)
    (h : ¬ i < dorks.length) :
    scanLoopAux env dorks processed i = ⟨[], [], 0⟩ := by
  rw [scanLoopAux]
  simp [h]

theorem scanLoopAux_skip (env : ScanEnv) (dorks processed : List String) (i : Nat)
    (h : i < dorks.length) (hmem : dorks[i] ∈ processed) :
    scanLoopAux env dorks processed i = scanLoopAux env dorks processed (i + 1) := by
  rw [scanLoopAux]
  simp [h, hmem]

theorem scanLoopAux_process (env : ScanEnv) (dorks processed : List String) (i : Nat)
    (h : i < dorks.length) (hmem : dorks[i] ∉ processed) :
    scanLoopAux env dorks processed i =
      { events := (processDorkDisplayMode env dorks[i] i dorks.length).2
          ++ (if SAVE_CHECKPOINT then [Event.save i] else [])
          ++ (scanLoopAux env dorks (processed ++ [dorks[i]]) (i + 1)).events
        results := (processDorkDisplayMode env dorks[i] i dorks.length).1
          :: (scanLoopAux env dorks (processed ++ [dorks[i]]) (i + 1)).results
        manuallyChecked := (if MANUAL_VALIDATION_MODE &&
              truthy (processDorkDisplayMode env dorks[i] i dorks.length).1.manuallyChecked
            then 1 else 0)
          + (scanLoopAux env dorks (processed ++ [dorks[i]]) (i + 1)).manuallyChecked } := by
  rw [scanLoopAux]
  simp [h, hmem]

theorem scanLoop_save_block (env : ScanEnv) (dorks : List String) :
    ∀ (fuel i : Nat) (processed : List String), dorks.length ≤ i + fuel →
      ∀ j, Event.save j ∈ (scanLoopAux env dorks processed i).events →
        ∃ d, dorks[j]? = some d ∧
          ((processDorkDisplayMode env d j dorks.length).2 ++ [Event.save j])
            <:+: (scanLoopAux env dorks processed i).events := by
  intro fuel
  induction fuel with
  | zero =>
    intro i processed hm j hj
    rw [scanLoopAux_stop env dorks processed i (by omega)] at hj
    simp at hj
  | succ n ih =>
    intro i processed hm j hj
    by_cases hlt : i < dorks.length
    · by_cases hmem : dorks[i] ∈ processed
      · rw [scanLoopAux_skip env dorks processed i hlt hmem] at hj ⊢
        exact ih (i + 1) processed (by omega) j hj
      · rw [scanLoopAux_process env dorks processed i hlt hmem] at hj ⊢
        simp only [SAVE_CHECKPOINT, if_true] at hj ⊢
        rcases List.mem_append.mp hj with hj | hj
        · rcases List.mem_append.mp hj with hj | hj
          · exfalso
            by_cases hv : MANUAL_VALIDATION_MODE
                && askUserToCheckUrl (env.verifyAnswer i) <;>
              simp [processDorkDisplayMode, hv] at hj
          · have hji : j = i := by simpa using hj
            subst hji
            refine ⟨dorks[j], List.getElem?_eq_getElem hlt, ?_⟩
            exact self_append_infix _ _
        · obtain ⟨d, hd, hinf⟩ :=
            ih (i + 1) (processed ++ [dorks[i]]) (by omega) j hj
          exact ⟨d, hd, infix_ext_left _ hinf⟩
    · rw [scanLoopAux_stop env dorks processed i hlt] at hj
      simp at hj

theorem scanLoop_display_inv (env : ScanEnv) (dorks : List String) :
    ∀ (fuel i : Nat) (processed : List String), dorks.length ≤ i + fuel →
      ∀ j d, Event.display j d ∈ (scanLoopAux env dorks processed i).events →
        i ≤ j ∧ d ∉ processed := by
  intro fuel
  induction fuel with
  | zero =>
    intro i processed hm j d hj
    rw [scanLoopAux_stop env dorks processed i (by omega)] at hj
    simp at hj
  | succ n ih =>
    intro i processed hm j d hj
    by_cases hlt : i < dorks.length
    · by_cases hmem : dorks[i] ∈ processed
      · rw [scanLoopAux_skip env dorks processed i hlt hmem] at hj
        have := ih (i + 1) processed (by omega) j d hj
        exact ⟨by omega, this.2⟩
      · rw [scanLoopAux_process env dorks processed i hlt hmem] at hj
        simp only [SAVE_CHECKPOINT, if_true] at hj
        rcases List.mem_append.mp hj with hj | hj
        · rcases List.mem_append.mp hj with hj | hj
          · by_cases hv : MANUAL_VALIDATION_MODE
                && askUserToCheckUrl (env.verifyAnswer i) <;>
              simp [processDorkDisplayMode, hv] at hj
            · obtain ⟨hji, hdd⟩ := hj
              subst hji
              exact ⟨Nat.le_refl _, hdd ▸ hmem⟩
            · obtain ⟨hji, hdd⟩ := hj
              subst hji
              exact ⟨Nat.le_refl _, hdd ▸ hmem⟩
          · simp at hj
        · have := ih (i + 1) (processed ++ [dorks[i]]) (by omega) j d hj
          refine ⟨by omega, fun hd => this.2 (List.mem_append_left _ hd)⟩
    · rw [scanLoopAux_stop env dorks processed i hlt] at hj
      simp at hj

theorem scanLoop_manuallyChecked (env : ScanEnv) (dorks : List String) :
    ∀ (fuel i : Nat) (processed : List String), dorks.length ≤ i + fuel →
      (scanLoopAux env dorks processed i).manuallyChecked = 0 ∧
      ∀ r ∈ (scanLoopAux env dorks processed i).results, r.manuallyChecked = none := by
  intro fuel
  induction fuel with
  | zero =>
    intro i processed hm
    rw [scanLoopAux_stop env dorks processed i (by omega)]
    simp
  | succ n ih =>
    intro i processed hm
    by_cases hlt : i < dorks.length
    · by_cases hmem : dorks[i] ∈ processed
      · rw [scanLoopAux_skip env dorks processed i hlt hmem]
        exact ih (i + 1) processed (by omega)
      · rw [scanLoopAux_process env dorks processed i hlt hmem]
        obtain ⟨ihc, ihr⟩ := ih (i + 1) (processed ++ [dorks[i]]) (by omega)
        constructor
        · simpa [processDorkDisplayMode, displayOnlyDorkInfo, truthy] using ihc
        · intro r hr
          rcases List.mem_cons.mp hr with hr | hr
          · subst hr; rfl
          · exact ihr r hr
    · rw [scanLoopAux_stop env dorks processed i hlt]
      simp

/-- C1: for every checkpoint-file state with a well-formed `lastIndex`
(at least the `-1` sentinel) and every dork list, (a) every checkpoint save
for an index `j` is immediately preceded, in the driver's action trace, by
the complete processing block of dork `j` — its display and, when the
operator opted in, the concluded manual browser-verification session —
so the save happens only after the full processing of dork `j`; and (b) on
resume the driver starts at `lastProcessedIndex + 1` (no dork with a
smaller index is processed) and additionally never processes a dork already
present in the checkpoint's `processedDorks`. -/
theorem scan_driver_checkpoint_spec (env : ScanEnv)
    (checkpointFile : Option Checkpoint) (dorks : List String)
    (hlast : -1 ≤ (loadCheckpoint checkpointFile).lastIndex) :
    (∀ j, Event.save j ∈ (runMultiEngineDorkScan env checkpointFile dorks).events →
       ∃ d, dorks[j]? = some d ∧
         ((processDorkDisplayMode env d j dorks.length).2 ++ [Event.save j])
           <:+: (runMultiEngineDorkScan env checkpointFile dorks).events) ∧
    (∀ j d, Event.display j d ∈ (runMultiEngineDorkScan env checkpointFile dorks).events →
       (loadCheckpoint checkpointFile).lastIndex + 1 ≤ (j : Int) ∧
       d ∉ (loadCheckpoint checkpointFile).processedDorks) := by
  constructor
  · intro j hj
    exact scanLoop_save_block env dorks dorks.length
      ((loadCheckpoint checkpointFile).lastIndex + 1).toNat
      (loadCheckpoint checkpointFile).processedDorks (by omega) j hj
  · intro j d hj
    have h := scanLoop_display_inv env dorks dorks.length
      ((loadCheckpoint checkpointFile).lastIndex + 1).toNat
      (loadCheckpoint checkpointFile).processedDorks (by omega) j d hj
    exact ⟨by omega, h.2⟩

theorem scan_driver_checkpoint_spec_witness :
    (∀ j, Event.save j ∈ (runMultiEngineDorkScan sampleScanEnv sampleCheckpointFile
         ["a", "b", "c"]).events →
       ∃ d, (["a", "b", "c"] : List String)[j]? = some d ∧
         ((processDorkDisplayMode sampleScanEnv d j
             (["a", "b", "c"] : List String).length).2 ++ [Event.save j])
           <:+: (runMultiEngineDorkScan sampleScanEnv sampleCheckpointFile
             ["a", "b", "c"]).events) ∧
    (∀ j d, Event.display j d ∈ (runMultiEngineDorkScan sampleScanEnv
         sampleCheckpointFile ["a", "b", "c"]).events →
       (loadCheckpoint sampleCheckpointFile).lastIndex + 1 ≤ (j : Int) ∧
       d ∉ (loadCheckpoint sampleCheckpointFile).processedDorks) :=
  scan_driver_checkpoint_spec sampleScanEnv sampleCheckpointFile ["a", "b", "c"]
    (by decide)

/-- C9: for every scan run — whatever the operator answers to the
verification prompts — the final `stats.manuallyChecked` counter is `0`,
because no result record ever carries the `manuallyChecked` flag that the
driver's increment condition tests (every record in `results` has the flag
absent). -/
theorem stats_manuallyChecked_zero (env : ScanEnv)
    (checkpointFile : Option Checkpoint) (dorks : List String) :
    (runMultiEngineDorkScan env checkpointFile dorks).manuallyChecked = 0 ∧
    ∀ r ∈ (runMultiEngineDorkScan env checkpointFile dorks).results,
      r.manuallyChecked = none :=
  scanLoop_manuallyChecked env dorks dorks.length
    ((loadCheckpoint checkpointFile).lastIndex + 1).toNat
    (loadCheckpoint checkpointFile).processedDorks (by omega)

end DorkHunter
